import Mathlib

/-!
Verification of the coloring-book generation subsystem.

Shallow embedding of the code in `src/server/prompt-tracker.ts`,
`src/unnamed/part_004` (the background generator with retry, rate limiting
and resume), `src/server/bookGenerator.ts` / the newer generator variant
bundled after the storage class, and `src/server/pdfAssembler.ts`.

Pure data transformations are translated into Lean functions; the effectful
orchestration is modelled by threading an explicit state record and by
parameterising over oracles for the non-deterministic ingredients (the
illustration-service outcome of each call and the random shuffle used for
prompt selection).
-/

namespace ColoringBook

/-! ## Prompt tracker (`src/server/prompt-tracker.ts`) -/

/-- Models `MAX_FAILURES_BEFORE_REMOVAL` from `prompt-tracker.ts`. -/
def MAX_FAILURES_BEFORE_REMOVAL : Nat := 10

/-- One entry of the `FailedPromptData` record: failure count, timestamp of
the last failure (abstracted to a `Nat`), and the bounded list of recent
error messages. -/
structure PromptRec where
  count : Nat
  lastFailed : Nat
  errors : List String
deriving DecidableEq

/-- The `failedPrompts` map, keyed by prompt text.  A JavaScript object is
modelled as an association list with first-match lookup. -/
abbrev FailedPromptData := List (String × PromptRec)

/-- Lookup `failedPrompts[prompt]`. -/
def lookupPrompt (m : FailedPromptData) (p : String) : Option PromptRec :=
  (m.find? (fun e => e.1 == p)).map (·.2)

/-- Assignment `failedPrompts[prompt] = rec`: replace the existing binding
or append a new one (JavaScript object keys are unique). -/
def setPrompt (m : FailedPromptData) (p : String) (r : PromptRec) : FailedPromptData :=
  match m with
  | [] => [(p, r)]
  | e :: rest => if e.1 == p then (p, r) :: rest else e :: setPrompt rest p r

/-- Models `recordPromptFailure(prompt, errorMessage)` from `prompt-tracker.ts`:
create the entry if absent, increment its count, refresh `lastFailed`,
append the truncated error keeping only the last 5 messages, and return the
updated count together with the updated map.  (The synchronous
`saveFailedPrompts()` call is modelled by `saveFailedPrompts` below.) -/
def recordPromptFailure (now : Nat) (prompt errorMessage : String)
    (m : FailedPromptData) : Nat × FailedPromptData :=
  let base := (lookupPrompt m prompt).getD ⟨0, now, []⟩
  let count := base.count + 1
  let errors1 := base.errors ++ [(errorMessage.take 200)]
  let errors2 := if errors1.length > 5 then errors1.drop 1 else errors1
  (count, setPrompt m prompt ⟨count, now, errors2⟩)

/-- Models `isPromptBlocked(prompt)`: true iff the prompt is tracked with a count
at or above the threshold. -/
def isPromptBlocked (m : FailedPromptData) (p : String) : Bool :=
  match lookupPrompt m p with
  | some d => MAX_FAILURES_BEFORE_REMOVAL ≤ d.count
  | none => false

/-- Models `getPromptFailureCount(prompt)`: the tracked count, 0 if untracked. -/
def getPromptFailureCount (m : FailedPromptData) (p : String) : Nat :=
  ((lookupPrompt m p).map (·.count)).getD 0

/-- Models `getBlockedPrompts()`: the keys of all entries at or above the
threshold. -/
def getBlockedPrompts (m : FailedPromptData) : List String :=
  (m.filter (fun e => MAX_FAILURES_BEFORE_REMOVAL ≤ e.2.count)).map (·.1)

/-- Models `resetPromptFailures(prompt)`: `delete failedPrompts[prompt]`. -/
def resetPromptFailures (p : String) (m : FailedPromptData) : FailedPromptData :=
  m.filter (fun e => !(e.1 == p))

/-- Models `resetAllPromptFailures()`: `failedPrompts = {}`. -/
def resetAllPromptFailures (_m : FailedPromptData) : FailedPromptData := []

/-- The durable `failed-prompts.json` file.  `saveFailedPrompts` writes the
whole map as JSON; the round trip through JSON is modelled by storing the
map itself. -/
structure PersistedTrackerFile where
  data : FailedPromptData

/-- Models `saveFailedPrompts()`: synchronous whole-map write. -/
def saveFailedPrompts (m : FailedPromptData) : PersistedTrackerFile := ⟨m⟩

/-- Models `loadFailedPrompts()` at process start: parse the file when it exists,
start from an empty map otherwise. -/
def loadFailedPrompts : Option PersistedTrackerFile → FailedPromptData
  | some f => f.data
  | none => []

/-! ### Tracker lemmas -/

theorem lookupPrompt_setPrompt_self (m : FailedPromptData) (p : String) (r : PromptRec) :
    lookupPrompt (setPrompt m p r) p = some r := by
  induction m with
  | nil => simp [setPrompt, lookupPrompt, List.find?]
  | cons e rest ih =>
    by_cases h : e.1 == p
    · simp [setPrompt, h, lookupPrompt, List.find?]
    · simp only [setPrompt, h, if_false]
      simpa [lookupPrompt, List.find?, h] using ih

theorem lookupPrompt_setPrompt_ne (m : FailedPromptData) (p q : String) (r : PromptRec)
    (hne : q ≠ p) : lookupPrompt (setPrompt m q r) p = lookupPrompt m p := by
  induction m with
  | nil =>
    have : (q == p) = false := beq_false_of_ne hne
    simp [setPrompt, lookupPrompt, List.find?, this]
  | cons e rest ih =>
    by_cases h : e.1 == q
    · have hqp : (q == p) = false := beq_false_of_ne hne
      have hep : (e.1 == p) = false := by
        have he : e.1 = q := by simpa using h
        simpa [he] using hqp
      simp [setPrompt, h, lookupPrompt, List.find?, hqp, hep]
    · simp only [setPrompt, h, if_false]
      by_cases hep : e.1 == p
      · simp [lookupPrompt, List.find?, hep]
      · simpa [lookupPrompt, List.find?, hep] using ih

theorem lookupPrompt_filter_ne (m : FailedPromptData) (p : String) :
    lookupPrompt (m.filter (fun e => !(e.1 == p))) p = none := by
  induction m with
  | nil => simp [lookupPrompt, List.find?]
  | cons e rest ih =>
    by_cases h : e.1 == p
    · simpa [List.filter, h] using ih
    · have hb : (e.1 == p) = false := by simpa using h
      simp only [List.filter, hb, Bool.not_false]
      simp [lookupPrompt, List.find?, hb]

theorem isPromptBlocked_record_same (m : FailedPromptData) (p : String) (now : Nat)
    (msg : String) (hb : isPromptBlocked m p = true) :
    isPromptBlocked (recordPromptFailure now p msg m).2 p = true := by
  unfold isPromptBlocked at hb
  cases hd : lookupPrompt m p with
  | none => rw [hd] at hb; simp at hb
  | some d =>
    rw [hd] at hb
    have hcount : MAX_FAILURES_BEFORE_REMOVAL ≤ d.count := by
      simpa using hb
    unfold isPromptBlocked recordPromptFailure
    rw [lookupPrompt_setPrompt_self]
    simp only [hd, Option.getD_some]
    simpa using Nat.le_succ_of_le hcount

theorem isPromptBlocked_record_other (m : FailedPromptData) (p q : String) (now : Nat)
    (msg : String) (hne : q ≠ p) :
    isPromptBlocked (recordPromptFailure now q msg m).2 p = isPromptBlocked m p := by
  unfold isPromptBlocked recordPromptFailure
  rw [lookupPrompt_setPrompt_ne _ _ _ _ hne]

theorem isPromptBlocked_iff_count (m : FailedPromptData) (p : String) :
    isPromptBlocked m p = true ↔ MAX_FAILURES_BEFORE_REMOVAL ≤ getPromptFailureCount m p := by
  unfold isPromptBlocked getPromptFailureCount
  cases lookupPrompt m p with
  | none => simp [MAX_FAILURES_BEFORE_REMOVAL]
  | some d => simp

theorem recordPromptFailure_count_eq (m : FailedPromptData) (p : String) (now : Nat)
    (msg : String) :
    getPromptFailureCount (recordPromptFailure now p msg m).2 p
      = (recordPromptFailure now p msg m).1 := by
  unfold getPromptFailureCount recordPromptFailure
  rw [lookupPrompt_setPrompt_self]
  rfl

/-- C4: once a prompt's recorded failure count reaches 10 it is blocked, and
blocking is sticky: `isPromptBlocked` is exactly "tracked count at least 10"
(false for untracked prompts), remains true after any further
`recordPromptFailure` call (for the same or another prompt), survives a
process restart via the persisted file, and is cleared only by an explicit
reset of that prompt or of all prompts. -/
theorem prompt_blocking_sticky (m : FailedPromptData) (p q : String) (now : Nat)
    (msg : String) :
    (isPromptBlocked m p = true ↔ 10 ≤ getPromptFailureCount m p)
    ∧ (10 ≤ (recordPromptFailure now p msg m).1 →
        isPromptBlocked (recordPromptFailure now p msg m).2 p = true)
    ∧ (isPromptBlocked m p = true →
        isPromptBlocked (recordPromptFailure now q msg m).2 p = true)
    ∧ isPromptBlocked (loadFailedPrompts (some (saveFailedPrompts m))) p
        = isPromptBlocked m p
    ∧ isPromptBlocked (resetPromptFailures p m) p = false
    ∧ isPromptBlocked (resetAllPromptFailures m) p = false := by
  refine ⟨isPromptBlocked_iff_count m p, ?_, ?_, rfl, ?_, rfl⟩
  · intro hc
    rw [isPromptBlocked_iff_count, recordPromptFailure_count_eq]
    exact hc
  · intro hb
    by_cases hqp : q = p
    · subst hqp; exact isPromptBlocked_record_same m q now msg hb
    · rw [isPromptBlocked_record_other m p q now msg hqp]; exact hb
  · unfold resetPromptFailures isPromptBlocked
    rw [lookupPrompt_filter_ne]

/-- Witness for C4 at a concrete tracker state: the prompt `"bad scene"`
with 9 recorded failures is not yet blocked, one more `recordPromptFailure`
returns count 10 and blocks it, and blocking survives recording a failure
for a different prompt. -/
theorem prompt_blocking_sticky_witness :
    isPromptBlocked [("bad scene", ⟨9, 0, []⟩)] "bad scene" = false
    ∧ isPromptBlocked
        (recordPromptFailure 1 "bad scene" "moderation_blocked"
          [("bad scene", ⟨9, 0, []⟩)]).2 "bad scene" = true
    ∧ isPromptBlocked
        (recordPromptFailure 2 "other scene" "moderation_blocked"
          (recordPromptFailure 1 "bad scene" "moderation_blocked"
            [("bad scene", ⟨9, 0, []⟩)]).2).2 "bad scene" = true := by
  have h1 : (recordPromptFailure 1 "bad scene" "moderation_blocked"
      [(("bad scene" : String), (⟨9, 0, []⟩ : PromptRec))]).1 = 10 := by decide
  have h2 := (prompt_blocking_sticky [("bad scene", ⟨9, 0, []⟩)] "bad scene" "other scene"
      1 "moderation_blocked").2.1 (by rw [h1])
  refine ⟨by decide, h2, ?_⟩
  have h3 := (prompt_blocking_sticky
      (recordPromptFailure 1 "bad scene" "moderation_blocked"
        [("bad scene", ⟨9, 0, []⟩)]).2 "bad scene" "other scene" 2
      "moderation_blocked").2.2.1 h2
  exact h3

/-! ## The result-slot array and its gap-free persisted form
(`src/unnamed/part_004`, `generatePageWithRetry` success path) -/

/-- The loop at lines 311-318 of the generator: the length of the run of
non-`null` entries at the front of `pageResults` (stop at the first gap). -/
def contiguousCount : List (Option String) → Nat
  | [] => 0
  | none :: _ => 0
  | some _ :: rest => contiguousCount rest + 1

/-- Models `pageResults.slice(0, contiguousCount).filter(img !== null)` — the image
list handed to `storage.updateOrderProgress`. -/
def contiguousImages (pageResults : List (Option String)) : List String :=
  (pageResults.take (contiguousCount pageResults)).filterMap id

/-- The success branch of `generatePageWithRetry`: store the image in its
slot, then recompute the persisted list. Returns the updated slot array and
the image list persisted by `updateOrderProgress`. -/
def successStep (pageResults : List (Option String)) (arrayIndex : Nat) (img : String) :
    List (Option String) × List String :=
  let updated := pageResults.set arrayIndex (some img)
  (updated, contiguousImages updated)

theorem contiguousCount_le_length (l : List (Option String)) :
    contiguousCount l ≤ l.length := by
  induction l with
  | nil => simp [contiguousCount]
  | cons a rest ih =>
    cases a with
    | none => simp [contiguousCount]
    | some s => simpa [contiguousCount] using Nat.succ_le_succ ih

theorem take_contiguousCount_all_isSome (l : List (Option String)) :
    (l.take (contiguousCount l)).all Option.isSome = true := by
  induction l with
  | nil => simp [contiguousCount]
  | cons a rest ih =>
    cases a with
    | none => simp [contiguousCount]
    | some s => simpa [contiguousCount] using ih

theorem filterMap_map_some_of_all_isSome (l : List (Option String))
    (h : l.all Option.isSome = true) : (l.filterMap id).map Option.some = l := by
  induction l with
  | nil => simp
  | cons a rest ih =>
    cases a with
    | none => simp at h
    | some s =>
      simp only [List.all_cons, Bool.and_eq_true] at h
      simpa using ih h.2

theorem contiguousCount_end_or_gap (l : List (Option String)) :
    contiguousCount l = l.length ∨ l.get? (contiguousCount l) = some none := by
  induction l with
  | nil => left; rfl
  | cons a rest ih =>
    cases a with
    | none => right; rfl
    | some s =>
      cases ih with
      | inl h => left; simp [contiguousCount, h]
      | inr h => right; simpa [contiguousCount] using h

/-- C1: every image list persisted by the success path of
`generatePageWithRetry` is a gap-free prefix of the result-slot array: after
storing an image in any slot, the persisted list equals exactly slots
`0..c-1` of the updated array (each wrapped in `some`), those slots are all
non-`null`, and `c` is maximal — the slot at index `c` is either past the
end or a gap. -/
theorem persisted_list_gap_free (pageResults : List (Option String))
    (arrayIndex : Nat) (img : String) :
    ((successStep pageResults arrayIndex img).2).map Option.some
        = (successStep pageResults arrayIndex img).1.take
            (contiguousCount (successStep pageResults arrayIndex img).1)
    ∧ ((successStep pageResults arrayIndex img).1.take
          (contiguousCount (successStep pageResults arrayIndex img).1)).all
            Option.isSome = true
    ∧ (contiguousCount (successStep pageResults arrayIndex img).1
          = (successStep pageResults arrayIndex img).1.length
        ∨ (successStep pageResults arrayIndex img).1.get?
            (contiguousCount (successStep pageResults arrayIndex img).1) = some none) := by
  set u := (successStep pageResults arrayIndex img).1 with hu
  refine ⟨?_, take_contiguousCount_all_isSome u, contiguousCount_end_or_gap u⟩
  have hall := take_contiguousCount_all_isSome u
  have := filterMap_map_some_of_all_isSome (u.take (contiguousCount u)) hall
  simpa [successStep, contiguousImages, hu] using this

/-! ## Final all-or-nothing check (`src/unnamed/part_004`, lines 415-440) -/

/-- The persisted order lifecycle states. -/
inductive OrderStatus
  | pending
  | generating
  | completed
  | failed
deriving DecidableEq

/-- The final check of `startBackgroundGeneration`: count the non-`null`
slots (`finalImages`); if fewer than `order.totalPages`, the order status is
set to `failed`, otherwise to `completed`. -/
def finalStatus (pageResults : List (Option String)) (totalPages : Nat) : OrderStatus :=
  if (pageResults.filterMap id).length < totalPages then .failed else .completed

theorem length_filterMap_id_eq_iff_all (l : List (Option String)) :
    (l.filterMap id).length = l.length ↔ l.all Option.isSome = true := by
  induction l with
  | nil => simp
  | cons a rest ih =>
    cases a with
    | none =>
      constructor
      · intro h
        exfalso
        have hle := List.length_filterMap_le id rest
        simp [List.filterMap_cons] at h
        omega
      · intro h
        simp at h
    | some s =>
      simp only [List.filterMap_cons, id, List.length_cons, List.all_cons,
        Option.isSome_some, Bool.true_and]
      rw [Nat.add_right_cancel_iff]
      exact ih

/-- C2: when a run reaches the final check, a success count strictly below
the order's page count yields status `failed` (never `completed`), and
status `completed` is reached exactly when every page slot is filled. -/
theorem all_or_nothing_delivery (pageResults : List (Option String)) (totalPages : Nat)
    (hlen : pageResults.length = totalPages) :
    ((pageResults.filterMap id).length < totalPages →
      finalStatus pageResults totalPages = .failed)
    ∧ (finalStatus pageResults totalPages = .completed →
        pageResults.all Option.isSome = true)
    ∧ (pageResults.all Option.isSome = true →
        finalStatus pageResults totalPages = .completed) := by
  refine ⟨fun h => by simp [finalStatus, h], fun h => ?_, fun h => ?_⟩
  · by_cases hc : (pageResults.filterMap id).length < totalPages
    · simp [finalStatus, hc] at h
    · have hle := List.length_filterMap_le id pageResults
      have : (pageResults.filterMap id).length = pageResults.length := by omega
      exact (length_filterMap_id_eq_iff_all pageResults).1 this
  · have := (length_filterMap_id_eq_iff_all pageResults).2 h
    have hnlt : ¬ (pageResults.filterMap id).length < totalPages := by omega
    simp [finalStatus, hnlt]

/-- Witness for C2: a 2-page order with only one slot filled is marked
`failed`, and a fully filled one `completed`. -/
theorem all_or_nothing_delivery_witness :
    finalStatus [some "img1", none] 2 = .failed
    ∧ finalStatus [some "img1", some "img2"] 2 = .completed := by
  constructor
  · exact (all_or_nothing_delivery [some "img1", none] 2 (by decide)).1 (by decide)
  · exact (all_or_nothing_delivery [some "img1", some "img2"] 2 (by decide)).2.2 (by decide)

/-! ## Resume: slot-array reconstruction and task building
(`src/unnamed/part_004`, lines 203-260) -/

/-- A page generation task as built by `startBackgroundGeneration`. -/
structure PageTask where
  pageNumber : Nat
  arrayIndex : Nat
  scenePrompt : String
deriving DecidableEq

/-- The copy loop at lines 209-211: `pageResults[i] = existingImages[i]` for
every index of `existingImages`.  (Writing past the end grows a JavaScript
array, which the last equation mirrors.) -/
def fillExisting (existingImages : List String) (pageResults : List (Option String)) :
    List (Option String) :=
  match existingImages, pageResults with
  | [], pr => pr
  | img :: rest, _ :: tail => some img :: fillExisting rest tail
  | img :: rest, [] => some img :: fillExisting rest []

/-- Lines 204-215: allocate `new Array(order.totalPages).fill(null)`, copy
the persisted images into the front, and if there are none, seed slot 0 with
`order.initialColoringImage`. -/
def buildPageResults (totalPages : Nat) (existingImages : List String)
    (initialColoringImage : String) : List (Option String) :=
  let pr := fillExisting existingImages (List.replicate totalPages none)
  if existingImages.length = 0 then pr.set 0 (some initialColoringImage) else pr

/-- The task-building loop at lines 250-260: walk the slot array with a
running prompt index, emitting a task (1-based page number, slot index, next
unused prompt) for every `null` slot while prompts remain. -/
def buildPageTasksAux (prompts : List String) :
    List (Option String) → Nat → Nat → List PageTask
  | [], _, _ => []
  | none :: rest, i, promptIndex =>
    match prompts[promptIndex]? with
    | some p => ⟨i + 1, i, p⟩ :: buildPageTasksAux prompts rest (i + 1) (promptIndex + 1)
    | none => buildPageTasksAux prompts rest (i + 1) promptIndex
  | some _ :: rest, i, promptIndex => buildPageTasksAux prompts rest (i + 1) promptIndex

/-- The `pageTasks` array built by `startBackgroundGeneration`. -/
def buildPageTasks (pageResults : List (Option String)) (prompts : List String) :
    List PageTask :=
  buildPageTasksAux prompts pageResults 0 0

theorem fillExisting_replicate (existingImages : List String) (n : Nat)
    (hlen : existingImages.length ≤ n) :
    fillExisting existingImages (List.replicate n none)
      = existingImages.map Option.some ++ List.replicate (n - existingImages.length) none := by
  induction existingImages generalizing n with
  | nil => simp [fillExisting]
  | cons img rest ih =>
    cases n with
    | zero => simp at hlen
    | succ m =>
      have hm : rest.length ≤ m := by simpa using hlen
      simp only [List.replicate_succ, fillExisting, List.map_cons, List.cons_append]
      rw [ih m hm]
      simp [Nat.succ_sub_succ]

theorem buildPageTasksAux_skip_filled (prompts : List String) (front : List String)
    (rest : List (Option String)) (i promptIndex : Nat) :
    buildPageTasksAux prompts (front.map Option.some ++ rest) i promptIndex
      = buildPageTasksAux prompts rest (i + front.length) promptIndex := by
  induction front generalizing i with
  | nil => simp
  | cons a tail ih =>
    simp only [List.map_cons, List.cons_append, buildPageTasksAux, List.length_cons,
      List.append_eq]
    rw [ih (i + 1)]
    congr 1
    omega

theorem buildPageTasksAux_replicate (prompts : List String) (m i promptIndex : Nat)
    (hp : promptIndex + m ≤ prompts.length) :
    buildPageTasksAux prompts (List.replicate m none) i promptIndex
      = (List.range' i m).map (fun j =>
          ⟨j + 1, j, prompts.getD (promptIndex + (j - i)) ""⟩) := by
  induction m generalizing i promptIndex with
  | zero => simp [buildPageTasksAux]
  | succ k ih =>
    have hlt : promptIndex < prompts.length := by omega
    have hget : prompts[promptIndex]? = some (prompts.getD promptIndex "") := by
      rw [List.getElem?_eq_getElem hlt, List.getD_eq_getElem prompts "" hlt]
    simp only [List.replicate_succ, buildPageTasksAux, hget, List.range'_succ,
      List.map_cons]
    rw [ih (i + 1) (promptIndex + 1) (by omega)]
    simp only [Nat.sub_self, Nat.add_zero]
    congr 1
    apply List.map_congr_left
    intro j hj
    have hji : i + 1 ≤ j := (List.mem_range'_1.mp hj).1
    congr 2
    omega

theorem range'_map_succ (k m : Nat) :
    (List.range' k m).map (fun j => j + 1) = List.range' (k + 1) m := by
  induction m generalizing k with
  | zero => simp
  | succ t ih => simp [List.range'_succ, ih]

theorem range'_map_getD (prompts : List String) (m k : Nat) (hm : m ≤ prompts.length) :
    (List.range' k m).map (fun j => prompts.getD (j - k) "") = prompts.take m := by
  induction m generalizing k prompts with
  | zero => simp
  | succ t ih =>
    cases prompts with
    | nil => simp at hm
    | cons p ps =>
      have hm' : t ≤ ps.length := by simpa using hm
      simp only [List.range'_succ, List.map_cons, Nat.sub_self, List.getD_cons_zero,
        List.take_succ_cons]
      congr 1
      rw [show (List.range' (k + 1) t).map (fun j => (p :: ps).getD (j - k) "")
          = (List.range' (k + 1) t).map (fun j => ps.getD (j - (k + 1)) "") from ?_]
      · exact ih ps (k + 1) hm'
      · apply List.map_congr_left
        intro j hj
        have hji : k + 1 ≤ j := (List.mem_range'_1.mp hj).1
        have : j - k = (j - (k + 1)) + 1 := by omega
        rw [this, List.getD_cons_succ]

/-- C5: a resumed run with `k ≥ 1` images persisted contiguously builds
generation tasks exactly for the page slots `k+1..n` (array indices
`k..n-1`), consuming the first `n-k` selected prompts in order; no task — and
hence no illustration-service call — is created for any of pages `1..k`. -/
theorem resume_no_duplicate_work (n k : Nat) (existingImages prompts : List String)
    (initialColoringImage : String)
    (hk : existingImages.length = k) (h1 : 1 ≤ k) (hkn : k ≤ n)
    (hprompts : n - k ≤ prompts.length) :
    (buildPageTasks (buildPageResults n existingImages initialColoringImage) prompts).map
        (fun t => t.pageNumber) = List.range' (k + 1) (n - k)
    ∧ (buildPageTasks (buildPageResults n existingImages initialColoringImage) prompts).map
        (fun t => t.arrayIndex) = List.range' k (n - k)
    ∧ (buildPageTasks (buildPageResults n existingImages initialColoringImage) prompts).map
        (fun t => t.scenePrompt) = prompts.take (n - k) := by
  have hne : existingImages.length ≠ 0 := by omega
  have hbuild : buildPageResults n existingImages initialColoringImage
      = existingImages.map Option.some ++ List.replicate (n - k) none := by
    unfold buildPageResults
    simp only [hne, if_false]
    rw [fillExisting_replicate existingImages n (by omega), hk]
  have htasks : buildPageTasks (buildPageResults n existingImages initialColoringImage) prompts
      = (List.range' k (n - k)).map (fun j => ⟨j + 1, j, prompts.getD (j - k) ""⟩) := by
    unfold buildPageTasks
    rw [hbuild, buildPageTasksAux_skip_filled, buildPageTasksAux_replicate prompts (n - k) _ _
      (by omega)]
    simp [hk]
  refine ⟨?_, ?_, ?_⟩
  · rw [htasks, List.map_map]
    exact range'_map_succ k (n - k)
  · rw [htasks, List.map_map]
    have hmapid : ∀ l : List Nat,
        l.map ((fun (t : PageTask) => t.arrayIndex)
          ∘ fun j => (⟨j + 1, j, prompts.getD (j - k) ""⟩ : PageTask)) = l := by
      intro l
      induction l with
      | nil => rfl
      | cons a t iht => rw [List.map_cons, iht]; rfl
    exact hmapid (List.range' k (n - k))
  · rw [htasks, List.map_map]
    exact range'_map_getD prompts (n - k) k hprompts

/-! ## Per-page retry loop (`src/unnamed/part_004`, `generatePageWithRetry`,
lines 262-407) -/

/-- Worker-pool size (`CONCURRENT_GENERATIONS`). -/
def CONCURRENT_GENERATIONS : Nat := 2

/-- Per-page attempt budget (`MAX_PROMPT_RETRIES`). -/
def MAX_PROMPT_RETRIES : Nat := 5

/-- Order-wide failure ceiling (`MAX_TOTAL_FAILURES`). -/
def MAX_TOTAL_FAILURES : Nat := 50

/-- The classified outcome of one illustration-service call
(`convertToColoringBook` succeeding, throwing a moderation error per
`isModerationError`, or throwing any other error). -/
inductive ServiceOutcome
  | ok (img : String)
  | moderation (msg : String)
  | otherError (msg : String)
deriving DecidableEq

/-- Models `getAvailablePrompts()`: the full catalog minus blocked prompts. -/
def getAvailablePrompts (allPrompts : List String) (tracker : FailedPromptData) :
    List String :=
  let blockedPrompts := getBlockedPrompts tracker
  allPrompts.filter (fun p => !(blockedPrompts.contains p))

/-- Models `selectAvailablePrompts(count, excludePrompts)`: filter out blocked and
already-used prompts, shuffle (the `Math.random` sort is abstracted as the
`shuffle` oracle), and take the first `count`. -/
def selectAvailablePrompts (allPrompts : List String) (tracker : FailedPromptData)
    (shuffle : List String → List String) (count : Nat) (excludePrompts : List String) :
    List String :=
  let available := (getAvailablePrompts allPrompts tracker).filter
    (fun p => !(excludePrompts.contains p))
  (shuffle available).take count

/-- The non-deterministic ingredients of one order run: the prompt catalog,
the shuffle used by the k-th call to `selectAvailablePrompts`, the outcome
of the k-th illustration-service call, and the clock value used for failure
records. -/
structure PageEnv where
  allPrompts : List String
  shuffles : Nat → List String → List String
  service : Nat → ServiceOutcome
  now : Nat

/-- The mutable state touched by a page task.  `tracker`, `usedPrompts`,
`pageResults`, `successCount` and `totalFailures` mirror the variables of
the same names in the source; `altCalls`, `svcCalls`, `transientCalls` and
`swapIters` are instrumentation counters (oracle cursors and event counts);
`persistLog` records every `updateOrderProgress(successCount, images)`
call. -/
structure RunState where
  tracker : FailedPromptData
  usedPrompts : List String
  pageResults : List (Option String)
  successCount : Nat
  totalFailures : Nat
  altCalls : Nat
  svcCalls : Nat
  transientCalls : Nat
  swapIters : Nat
  persistLog : List (Nat × List String)

/-- How one invocation of `generatePageWithRetry` ended. -/
inductive ExitKind
  | succeeded
  | blockedPoolEmpty
  | modPoolEmpty
  | transientBudget
  | loopExhausted
deriving DecidableEq

/-- The `while (attempts < MAX_PROMPT_RETRIES)` loop of
`generatePageWithRetry`, with `fuel = MAX_PROMPT_RETRIES - attempts` (the
top-of-loop `attempts++` corresponds to consuming one unit of fuel, and the
post-increment check `attempts >= MAX_PROMPT_RETRIES` in the transient
branch corresponds to `fuel = 0` after consumption).  Branches, in source
order: a blocked current prompt is swapped via `selectAvailablePrompts`
(page fails when none is available, without touching `totalFailures`); a
successful service call stores the image, recomputes the contiguous prefix
and persists it; a moderation error records the prompt failure and swaps
(incrementing `totalFailures` and failing when the pool is empty); any
other error increments `totalFailures` and retries the same prompt, or
fails when the budget is exhausted.  Exiting the `while` condition
increments `totalFailures` once more. -/
def pageLoop (env : PageEnv) (arrayIndex : Nat) :
    Nat → String → RunState → ExitKind × RunState
  | 0, _, st => (.loopExhausted, { st with totalFailures := st.totalFailures + 1 })
  | remaining + 1, currentPrompt, st =>
    if isPromptBlocked st.tracker currentPrompt then
      let alternatives := selectAvailablePrompts env.allPrompts st.tracker
        (env.shuffles st.altCalls) 1 st.usedPrompts
      let st1 := { st with altCalls := st.altCalls + 1, swapIters := st.swapIters + 1 }
      match alternatives with
      | [] => (.blockedPoolEmpty, st1)
      | p :: _ =>
        pageLoop env arrayIndex remaining p { st1 with usedPrompts := p :: st1.usedPrompts }
    else
      match env.service st.svcCalls with
      | .ok img =>
        let st1 := { st with svcCalls := st.svcCalls + 1 }
        let updated := st1.pageResults.set arrayIndex (some img)
        let newSuccess := st1.successCount + 1
        (.succeeded, { st1 with
          pageResults := updated
          successCount := newSuccess
          persistLog := (newSuccess, contiguousImages updated) :: st1.persistLog })
      | .moderation msg =>
        let st1 := { st with
          svcCalls := st.svcCalls + 1
          tracker := (recordPromptFailure env.now currentPrompt msg st.tracker).2 }
        let alternatives := selectAvailablePrompts env.allPrompts st1.tracker
          (env.shuffles st1.altCalls) 1 st1.usedPrompts
        let st2 := { st1 with altCalls := st1.altCalls + 1 }
        match alternatives with
        | [] => (.modPoolEmpty, { st2 with totalFailures := st2.totalFailures + 1 })
        | p :: _ =>
          pageLoop env arrayIndex remaining p { st2 with usedPrompts := p :: st2.usedPrompts }
      | .otherError _ =>
        let st1 := { st with
          svcCalls := st.svcCalls + 1
          totalFailures := st.totalFailures + 1
          transientCalls := st.transientCalls + 1 }
        if remaining = 0 then (.transientBudget, st1)
        else pageLoop env arrayIndex remaining currentPrompt st1

/-- The result of one queued task closure (lines 390-407). -/
inductive TaskOutcome
  | skippedTask
  | ran (ek : ExitKind)
deriving DecidableEq

/-- The closure handed to `orderQueue.add`: when the order-wide failure
counter has reached the ceiling, return `skipped: true` without running the
page; otherwise run `generatePageWithRetry`. -/
def pageTask (env : PageEnv) (arrayIndex : Nat) (initialPrompt : String) (st : RunState) :
    TaskOutcome × RunState :=
  if MAX_TOTAL_FAILURES ≤ st.totalFailures then (.skippedTask, st)
  else
    let r := pageLoop env arrayIndex MAX_PROMPT_RETRIES initialPrompt st
    (.ran r.1, r.2)

/-- How many times a given loop exit adds to `totalFailures` beyond the
per-transient-attempt increments. -/
def exitBonus : ExitKind → Nat
  | .modPoolEmpty => 1
  | .loopExhausted => 1
  | _ => 0

theorem pageLoop_totalFailures (env : PageEnv) (i : Nat) :
    ∀ (fuel : Nat) (p : String) (st : RunState),
    (pageLoop env i fuel p st).2.totalFailures + st.transientCalls
      = st.totalFailures + (pageLoop env i fuel p st).2.transientCalls
        + exitBonus (pageLoop env i fuel p st).1 := by
  intro fuel
  induction fuel with
  | zero => intro p st; simp [pageLoop, exitBonus]; omega
  | succ remaining ih =>
    intro p st
    by_cases hb : isPromptBlocked st.tracker p = true
    · cases halt : selectAvailablePrompts env.allPrompts st.tracker
        (env.shuffles st.altCalls) 1 st.usedPrompts with
      | nil => simp [pageLoop, hb, halt, exitBonus]
      | cons q qs =>
        simp only [pageLoop, hb, if_true, halt]
        simpa using ih q _
    · have hb' : isPromptBlocked st.tracker p = false := by simpa using hb
      cases hsvc : env.service st.svcCalls with
      | ok img => simp [pageLoop, hb', hsvc, exitBonus]
      | moderation msg =>
        cases halt : selectAvailablePrompts env.allPrompts
            (recordPromptFailure env.now p msg st.tracker).2
            (env.shuffles st.altCalls) 1 st.usedPrompts with
        | nil => simp [pageLoop, hb', hsvc, halt, exitBonus]; omega
        | cons q qs =>
          simp only [pageLoop, hb', Bool.false_eq_true, if_false, hsvc]
          simp only [halt]
          simpa using ih q _
      | otherError msg =>
        by_cases hr : remaining = 0
        · simp [pageLoop, hb', hsvc, hr, exitBonus]; omega
        · simp only [pageLoop, hb', Bool.false_eq_true, if_false, hsvc, hr]
          have hih := ih p { st with
            svcCalls := st.svcCalls + 1
            totalFailures := st.totalFailures + 1
            transientCalls := st.transientCalls + 1 }
          simp only [exitBonus] at hih ⊢
          omega

theorem pageLoop_attempt_budget (env : PageEnv) (i : Nat) :
    ∀ (fuel : Nat) (p : String) (st : RunState),
    (pageLoop env i fuel p st).2.swapIters + (pageLoop env i fuel p st).2.svcCalls
      ≤ st.swapIters + st.svcCalls + fuel := by
  intro fuel
  induction fuel with
  | zero => intro p st; simp [pageLoop]
  | succ remaining ih =>
    intro p st
    by_cases hb : isPromptBlocked st.tracker p = true
    · cases halt : selectAvailablePrompts env.allPrompts st.tracker
        (env.shuffles st.altCalls) 1 st.usedPrompts with
      | nil => simp [pageLoop, hb, halt]; omega
      | cons q qs =>
        simp only [pageLoop, hb, if_true, halt]
        have hih := ih q { st with
          altCalls := st.altCalls + 1
          swapIters := st.swapIters + 1
          usedPrompts := q :: st.usedPrompts }
        simp only [MAX_PROMPT_RETRIES] at hih ⊢
        omega
    · have hb' : isPromptBlocked st.tracker p = false := by simpa using hb
      cases hsvc : env.service st.svcCalls with
      | ok img => simp [pageLoop, hb', hsvc]; omega
      | moderation msg =>
        cases halt : selectAvailablePrompts env.allPrompts
            (recordPromptFailure env.now p msg st.tracker).2
            (env.shuffles st.altCalls) 1 st.usedPrompts with
        | nil => simp [pageLoop, hb', hsvc, halt]; omega
        | cons q qs =>
          simp only [pageLoop, hb', Bool.false_eq_true, if_false, hsvc]
          simp only [halt]
          have hih := ih q { st with
            svcCalls := st.svcCalls + 1
            tracker := (recordPromptFailure env.now p msg st.tracker).2
            altCalls := st.altCalls + 1
            usedPrompts := q :: st.usedPrompts }
          simp only [MAX_PROMPT_RETRIES] at hih ⊢
          omega
      | otherError msg =>
        by_cases hr : remaining = 0
        · simp [pageLoop, hb', hsvc, hr]; omega
        · simp only [pageLoop, hb', Bool.false_eq_true, if_false, hsvc, hr]
          have hih := ih p { st with
            svcCalls := st.svcCalls + 1
            totalFailures := st.totalFailures + 1
            transientCalls := st.transientCalls + 1 }
          simp only [MAX_PROMPT_RETRIES] at hih ⊢
          omega

theorem pageLoop_ignores_totalFailures (env : PageEnv) (i : Nat) :
    ∀ (fuel : Nat) (p : String) (st : RunState) (n : Nat),
    (pageLoop env i fuel p { st with totalFailures := n }).1
      = (pageLoop env i fuel p st).1
    ∧ (pageLoop env i fuel p { st with totalFailures := n }).2.svcCalls
      = (pageLoop env i fuel p st).2.svcCalls := by
  intro fuel
  induction fuel with
  | zero => intro p st n; simp [pageLoop]
  | succ remaining ih =>
    intro p st n
    by_cases hb : isPromptBlocked st.tracker p = true
    · cases halt : selectAvailablePrompts env.allPrompts st.tracker
        (env.shuffles st.altCalls) 1 st.usedPrompts with
      | nil => simp [pageLoop, hb, halt]
      | cons q qs =>
        simp only [pageLoop, hb, if_true, halt]
        exact ih q { st with
          altCalls := st.altCalls + 1
          swapIters := st.swapIters + 1
          usedPrompts := q :: st.usedPrompts } n
    · have hb' : isPromptBlocked st.tracker p = false := by simpa using hb
      cases hsvc : env.service st.svcCalls with
      | ok img => simp [pageLoop, hb', hsvc]
      | moderation msg =>
        cases halt : selectAvailablePrompts env.allPrompts
            (recordPromptFailure env.now p msg st.tracker).2
            (env.shuffles st.altCalls) 1 st.usedPrompts with
        | nil => simp [pageLoop, hb', hsvc, halt]
        | cons q qs =>
          simp only [pageLoop, hb', Bool.false_eq_true, if_false, hsvc]
          simp only [halt]
          exact ih q { st with
            svcCalls := st.svcCalls + 1
            tracker := (recordPromptFailure env.now p msg st.tracker).2
            altCalls := st.altCalls + 1
            usedPrompts := q :: st.usedPrompts } n
      | otherError msg =>
        by_cases hr : remaining = 0
        · simp [pageLoop, hb', hsvc, hr]
        · simp only [pageLoop, hb', Bool.false_eq_true, if_false, hsvc, hr]
          exact ih p { st with
            svcCalls := st.svcCalls + 1
            totalFailures := st.totalFailures + 1
            transientCalls := st.transientCalls + 1 } (n + 1)

theorem blocked_mem_getBlockedPrompts (m : FailedPromptData) (p : String)
    (hb : isPromptBlocked m p = true) : p ∈ getBlockedPrompts m := by
  unfold isPromptBlocked at hb
  cases hf : m.find? (fun e => e.1 == p) with
  | none => unfold lookupPrompt at hb; rw [hf] at hb; simp at hb
  | some e =>
    have hcount : MAX_FAILURES_BEFORE_REMOVAL ≤ e.2.count := by
      unfold lookupPrompt at hb
      rw [hf] at hb
      simpa using hb
    have hkey := List.find?_some hf
    have hmem : e ∈ m := List.mem_of_find?_eq_some hf
    have hep : e.1 = p := by simpa using hkey
    unfold getBlockedPrompts
    rw [← hep]
    apply List.mem_map_of_mem
    rw [List.mem_filter]
    exact ⟨hmem, by simpa using hcount⟩

theorem mem_selectAvailablePrompts (allPrompts : List String) (tracker : FailedPromptData)
    (shuffle : List String → List String) (count : Nat) (excludePrompts : List String)
    (p : String) (hsh : ∀ l, ∀ x ∈ shuffle l, x ∈ l)
    (hp : p ∈ selectAvailablePrompts allPrompts tracker shuffle count excludePrompts) :
    isPromptBlocked tracker p = false ∧ p ∉ excludePrompts := by
  unfold selectAvailablePrompts at hp
  have hp1 := List.mem_of_mem_take hp
  have hp2 := hsh _ _ hp1
  have hp3 := List.mem_filter.mp hp2
  have hnotex : p ∉ excludePrompts := by
    intro hmem
    have h2 := hp3.2
    simp [hmem] at h2
  refine ⟨?_, hnotex⟩
  have hp4 := List.mem_filter.mp hp3.1
  have hnotbl := hp4.2
  by_cases hb : isPromptBlocked tracker p = true
  · exfalso
    have hmem := blocked_mem_getBlockedPrompts tracker p hb
    simp [hmem] at hnotbl
  · simpa using hb

/-- C6 (amended): whenever the current prompt is found blocked before
calling the service, it is swapped for a fresh replacement that is neither
blocked nor already used, and the page fails without a service call when no
replacement exists; but the swap consumes one of the page's 5 attempts —
every loop iteration, swap or service call, consumes one unit of the
attempt budget, so swap iterations plus service calls never exceed the
budget. -/
theorem prompt_swap_semantics :
    (∀ (env : PageEnv) (i fuel : Nat) (p : String) (st : RunState),
      (pageLoop env i fuel p st).2.swapIters + (pageLoop env i fuel p st).2.svcCalls
        ≤ st.swapIters + st.svcCalls + fuel)
    ∧ (∀ (env : PageEnv) (i fuel : Nat) (p : String) (st : RunState),
        isPromptBlocked st.tracker p = true →
        selectAvailablePrompts env.allPrompts st.tracker (env.shuffles st.altCalls) 1
          st.usedPrompts = [] →
        (pageLoop env i (fuel + 1) p st).1 = ExitKind.blockedPoolEmpty
        ∧ (pageLoop env i (fuel + 1) p st).2.svcCalls = st.svcCalls)
    ∧ (∀ (env : PageEnv) (i fuel : Nat) (p : String) (st : RunState) (q : String)
        (qs : List String),
        isPromptBlocked st.tracker p = true →
        (∀ l, ∀ x ∈ env.shuffles st.altCalls l, x ∈ l) →
        selectAvailablePrompts env.allPrompts st.tracker (env.shuffles st.altCalls) 1
          st.usedPrompts = q :: qs →
        isPromptBlocked st.tracker q = false ∧ q ∉ st.usedPrompts
        ∧ pageLoop env i (fuel + 1) p st
            = pageLoop env i fuel q { st with
                altCalls := st.altCalls + 1
                swapIters := st.swapIters + 1
                usedPrompts := q :: st.usedPrompts }) := by
  refine ⟨fun env i fuel p st => pageLoop_attempt_budget env i fuel p st, ?_, ?_⟩
  · intro env i fuel p st hb halt
    constructor
    · simp [pageLoop, hb, halt]
    · simp [pageLoop, hb, halt]
  · intro env i fuel p st q qs hb hsh halt
    have hmem : q ∈ selectAvailablePrompts env.allPrompts st.tracker
        (env.shuffles st.altCalls) 1 st.usedPrompts := by
      rw [halt]; exact List.mem_cons_self q qs
    have hfresh := mem_selectAvailablePrompts env.allPrompts st.tracker
      (env.shuffles st.altCalls) 1 st.usedPrompts q hsh hmem
    refine ⟨hfresh.1, hfresh.2, ?_⟩
    simp [pageLoop, hb, halt]

/-- Concrete environment refuting C6 as stated: both catalog prompts, an
identity shuffle, and a service that always fails transiently. -/
def envC6 : PageEnv :=
  { allPrompts := ["a", "b"]
    shuffles := fun _ l => l
    service := fun _ => .otherError "socket hang up"
    now := 0 }

/-- Task state for the C6 run: prompt `"a"` is blocked (10 recorded
failures) and was handed out as the page's initial prompt. -/
def stC6 : RunState :=
  { tracker := [("a", ⟨10, 0, []⟩)]
    usedPrompts := ["a"]
    pageResults := [none]
    successCount := 1
    totalFailures := 0
    altCalls := 0
    svcCalls := 0
    transientCalls := 0
    swapIters := 0
    persistLog := [] }

/-- Counterexample to C6 as stated: the claim says a blocked-prompt swap
consumes no attempt, so a page that exhausts its budget of 5 would have made
5 service calls.  In this run the initial prompt is blocked and swapped
once, the loop exits with the budget exhausted, and only 4 service calls
were made — the swap consumed one of the 5 attempts. -/
theorem prompt_swap_counterexample :
    (pageLoop envC6 0 5 "a" stC6).1 = ExitKind.transientBudget
    ∧ (pageLoop envC6 0 5 "a" stC6).2.swapIters = 1
    ∧ (pageLoop envC6 0 5 "a" stC6).2.svcCalls = 4 := by
  decide

/-- Witness for C6 (amended) at the concrete blocked state: the swapped-in
prompt `"b"` is unblocked and unused, and the swap continues the loop with
one unit of fuel consumed. -/
theorem prompt_swap_semantics_witness :
    isPromptBlocked stC6.tracker "b" = false
    ∧ ("b" : String) ∉ stC6.usedPrompts
    ∧ pageLoop envC6 0 5 "a" stC6
        = pageLoop envC6 0 4 "b" { stC6 with
            altCalls := stC6.altCalls + 1
            swapIters := stC6.swapIters + 1
            usedPrompts := "b" :: stC6.usedPrompts } := by
  have h := prompt_swap_semantics.2.2 envC6 0 4 "a" stC6 "b" []
    (by decide) (fun l x hx => hx) (by decide)
  exact ⟨h.1, h.2.1, h.2.2⟩

/-- C7 (amended): the order-wide failure counter is incremented once per
transient (non-moderation) error attempt, once when a moderation rejection
finds the prompt pool exhausted, and once when the retry loop exits with
its condition false — so a page failing after t transient attempts
contributes t increments (not one), and a page failing at the
blocked-prompt check contributes none; every task dequeued after the
counter has reached the ceiling of 50 returns skipped with the state (hence
service-call count) untouched; and a running retry loop never consults the
counter — its exit and its service-call count are unchanged under any value
of `totalFailures`. -/
theorem failure_counter_behavior :
    (∀ (env : PageEnv) (i fuel : Nat) (p : String) (st : RunState),
      (pageLoop env i fuel p st).2.totalFailures + st.transientCalls
        = st.totalFailures + (pageLoop env i fuel p st).2.transientCalls
          + exitBonus (pageLoop env i fuel p st).1)
    ∧ (∀ (env : PageEnv) (i : Nat) (p : String) (st : RunState),
        MAX_TOTAL_FAILURES ≤ st.totalFailures →
        pageTask env i p st = (TaskOutcome.skippedTask, st))
    ∧ (∀ (env : PageEnv) (i fuel : Nat) (p : String) (st : RunState) (n : Nat),
        (pageLoop env i fuel p { st with totalFailures := n }).1
          = (pageLoop env i fuel p st).1
        ∧ (pageLoop env i fuel p { st with totalFailures := n }).2.svcCalls
          = (pageLoop env i fuel p st).2.svcCalls) := by
  refine ⟨fun env i fuel p st => pageLoop_totalFailures env i fuel p st, ?_,
    fun env i fuel p st n => pageLoop_ignores_totalFailures env i fuel p st n⟩
  intro env i p st h
  simp [pageTask, h]

/-- Concrete environment refuting C7 as stated: a single catalog prompt and
a service that always fails transiently. -/
def envC7 : PageEnv :=
  { allPrompts := ["a"]
    shuffles := fun _ l => l
    service := fun _ => .otherError "rate limit"
    now := 0 }

/-- Fresh task state for the C7 run: nothing tracked, counter at zero. -/
def stC7 : RunState :=
  { tracker := []
    usedPrompts := ["a"]
    pageResults := [none]
    successCount := 1
    totalFailures := 0
    altCalls := 0
    svcCalls := 0
    transientCalls := 0
    swapIters := 0
    persistLog := [] }

/-- Counterexample to C7 as stated: this run is exactly one page-level
permanent failure, yet the order-wide failure counter ends at 5 — it was
incremented once per transient retry attempt, not once per permanent
failure. -/
theorem failure_counter_counterexample :
    (pageLoop envC7 0 5 "a" stC7).1 = ExitKind.transientBudget
    ∧ (pageLoop envC7 0 5 "a" stC7).2.totalFailures = 5 := by
  decide

/-- State of a task dequeued after the failure ceiling was reached. -/
def stC7ceiling : RunState :=
  { tracker := []
    usedPrompts := []
    pageResults := [none]
    successCount := 1
    totalFailures := 50
    altCalls := 0
    svcCalls := 0
    transientCalls := 0
    swapIters := 0
    persistLog := [] }

/-- Witness for C7 (amended): a task dequeued with the counter at the
ceiling of 50 returns skipped and leaves the state untouched. -/
theorem failure_counter_behavior_witness :
    pageTask envC7 0 "a" stC7ceiling = (TaskOutcome.skippedTask, stC7ceiling) :=
  failure_counter_behavior.2.1 envC7 0 "a" stC7ceiling (by decide)

/-- Witness for C5: a 5-page order resumed with 3 persisted images and 2
fresh prompts schedules exactly pages 4 and 5 on slots 3 and 4, consuming
prompts in order. -/
theorem resume_no_duplicate_work_witness :
    (buildPageTasks (buildPageResults 5 ["i1", "i2", "i3"] "init") ["p4", "p5"]).map
        (fun t => t.pageNumber) = [4, 5]
    ∧ (buildPageTasks (buildPageResults 5 ["i1", "i2", "i3"] "init") ["p4", "p5"]).map
        (fun t => t.scenePrompt) = ["p4", "p5"] := by
  have h := resume_no_duplicate_work 5 3 ["i1", "i2", "i3"] ["p4", "p5"] "init"
    (by decide) (by decide) (by decide) (by decide)
  exact ⟨by rw [h.1]; decide, by rw [h.2.2]; decide⟩

/-! ## PDF assembly hand-off (`src/server/bookGenerator.ts`, `generateBook`
lines 149-188, and the newer `generateBook` variant bundled after the
storage class in the `src/server/storage.ts` source file, lines 470-511) -/

/-- Whether the awaited `assemblePDF(orderId)` call returned a download URL
or threw. -/
inductive AssembleOutcome
  | ok (downloadUrl : String)
  | raised
deriving DecidableEq

/-- The fields of the `storage.updateOrder` call issued after the assembly
step (only the ones the claim is about). -/
structure OrderUpdate where
  status : OrderStatus
  pdfUrl : Option String
deriving DecidableEq

/-- The try/catch around `assemblePDF` in `generateBook` of
`bookGenerator.ts`: on success the order is updated to `completed` with the
`pdfUrl`; the catch block (lines 180-187) updates the order to status
`'completed'` with no `pdfUrl`. -/
def finalizeAfterAssembly (outcome : AssembleOutcome) : OrderUpdate :=
  match outcome with
  | .ok url => { status := .completed, pdfUrl := some url }
  | .raised => { status := .completed, pdfUrl := none }

/-- The same try/catch in the newer `generateBook` variant (bundled in the
`storage.ts` source file, lines 503-510): the catch block sets status
`'failed'`, with the comment "Mark as failed if PDF assembly fails, not
completed". -/
def finalizeAfterAssemblyNewer (outcome : AssembleOutcome) : OrderUpdate :=
  match outcome with
  | .ok url => { status := .completed, pdfUrl := some url }
  | .raised => { status := .failed, pdfUrl := none }

/-- C3 (code bug): when `assemblePDF` throws, the catch block of
`generateBook` in `bookGenerator.ts` marks the order `completed`, not
`failed` as the claim requires — contradicting the newer variant in the
repository whose catch sets `failed` and comments that assembly failure
must not yield `completed`.  No artifact reference is stored on either
error path, and the newer variant satisfies the claim. -/
theorem assembly_failure_status :
    (finalizeAfterAssembly .raised).status = .completed
    ∧ (finalizeAfterAssembly .raised).status ≠ .failed
    ∧ (finalizeAfterAssembly .raised).pdfUrl = none
    ∧ (finalizeAfterAssemblyNewer .raised).status = .failed
    ∧ (finalizeAfterAssemblyNewer .raised).pdfUrl = none := by
  decide

/-! ## Active-order guard (`src/unnamed/part_004`,
`startBackgroundGeneration`) -/

/-- The five ways a `startBackgroundGeneration` call can terminate once it
has passed the duplicate-processing guard: order not found in the database
(line 185), nothing left to generate (line 225), final check failed
(line 426), completed (line 434), or the outer catch handler (line 460). -/
inductive RunPath
  | notFound
  | allDone
  | genFailed
  | genCompleted
  | outerException
deriving DecidableEq

/-- Models `activeOrders.add(orderId)` (JavaScript `Set` semantics). -/
def setAdd (s : List Nat) (x : Nat) : List Nat := if x ∈ s then s else x :: s

/-- Models `activeOrders.delete(orderId)`. -/
def setDelete (s : List Nat) (x : Nat) : List Nat := s.filter (fun y => y != x)

/-- The lifecycle of the `activeOrders` set across one
`startBackgroundGeneration` call: return unchanged when the order is
already being processed (lines 155-158); otherwise add the id (line 159)
and delete it again on whichever exit path the run takes (lines 185, 225,
426, 434 and 460 all call `activeOrders.delete(orderId)`). -/
def startBackgroundGenerationActive (path : RunPath) (activeOrders : List Nat)
    (orderId : Nat) : List Nat :=
  if activeOrders.contains orderId then activeOrders
  else
    let a := setAdd activeOrders orderId
    match path with
    | .notFound => setDelete a orderId
    | .allDone => setDelete a orderId
    | .genFailed => setDelete a orderId
    | .genCompleted => setDelete a orderId
    | .outerException => setDelete a orderId

/-- C9: on every exit path of `startBackgroundGeneration` — order not
found, nothing left to generate, marked failed, marked completed, or an
exception caught by the outer handler — the order id is removed from the
in-process active-order set (indeed the set is restored exactly), so a
terminated run never leaves its order locked against future runs. -/
theorem active_orders_released (path : RunPath) (activeOrders : List Nat) (orderId : Nat)
    (h : orderId ∉ activeOrders) :
    orderId ∉ startBackgroundGenerationActive path activeOrders orderId
    ∧ startBackgroundGenerationActive path activeOrders orderId = activeOrders := by
  have hc : activeOrders.contains orderId = false := by simpa using h
  have hadd : setAdd activeOrders orderId = orderId :: activeOrders := by
    simp [setAdd, h]
  have hfil : activeOrders.filter (fun y => y != orderId) = activeOrders := by
    apply List.filter_eq_self.mpr
    intro y hy
    have hne : y ≠ orderId := fun e => h (e ▸ hy)
    simpa using hne
  have hdel : setDelete (orderId :: activeOrders) orderId = activeOrders := by
    simp [setDelete, hfil]
  have heq : startBackgroundGenerationActive path activeOrders orderId = activeOrders := by
    cases path <;> simp [startBackgroundGenerationActive, hc, hadd, hdel]
  exact ⟨by rw [heq]; exact h, heq⟩

/-- Witness for C9: a completed run for order 3, with order 7 concurrently
active, releases order 3 and leaves the active set as it was. -/
theorem active_orders_released_witness :
    (3 : Nat) ∉ startBackgroundGenerationActive RunPath.genCompleted [7] 3
    ∧ startBackgroundGenerationActive RunPath.genCompleted [7] 3 = [7] :=
  active_orders_released RunPath.genCompleted [7] 3 (by decide)

/-! ## PDF assembler (`src/server/pdfAssembler.ts`, `assemblePDF`) -/

/-- A row of the book-pages table as consumed by the assembler: 0 is the
cover; `imageData` and `storyText` are nullable columns. -/
structure BookPage where
  pageNumber : Nat
  imageData : Option String
  storyText : Option String
deriving DecidableEq

/-- The ways `assemblePDF` can throw. -/
inductive AssembleError
  | orderNotFound
  | storyNotFound
  | noPages
  | writeFailure
deriving DecidableEq

/-- Insertion step for sorting by page number. -/
def insertPage (pg : BookPage) : List BookPage → List BookPage
  | [] => [pg]
  | q :: rest =>
    if pg.pageNumber < q.pageNumber then pg :: q :: rest else q :: insertPage pg rest

/-- Models `pages.sort((a, b) => a.pageNumber - b.pageNumber)` (line 65). -/
def sortPages : List BookPage → List BookPage
  | [] => []
  | pg :: rest => insertPage pg (sortPages rest)

/-- The environment of one `assemblePDF(orderId)` call: whether the order
and story rows exist, the book pages, whether the per-page rendering try
block throws for the k-th attempted page (`doc.addPage`, SVG placement,
image drawing or text layout), whether vectorization succeeds for it (a
vectorization failure alone is caught separately and only selects the
raster fallback), the output file name, and whether the final stream write
finishes without error. -/
structure AssembleEnv where
  orderFound : Bool
  storyFound : Bool
  pages : List BookPage
  renderThrows : Nat → Bool
  vectorizeOk : Nat → Bool
  fileName : String
  writeOk : Bool

/-- The page loop of `assemblePDF` (lines 96-211): a page without image
data is skipped by `continue` before the try block; a page whose rendering
throws is caught, logged and omitted; otherwise the page is added in vector
or raster mode.  Returns `(pageNumber, usedVector)` for each page added,
with `k` counting attempted pages. -/
def processPages (renderThrows vectorizeOk : Nat → Bool) :
    List BookPage → Nat → List (Nat × Bool)
  | [], _ => []
  | pg :: rest, k =>
    match pg.imageData with
    | none => processPages renderThrows vectorizeOk rest k
    | some _ =>
      if renderThrows k then processPages renderThrows vectorizeOk rest (k + 1)
      else (pg.pageNumber, vectorizeOk k)
        :: processPages renderThrows vectorizeOk rest (k + 1)

/-- Models `assemblePDF(orderId)` (lines 47-227): throw when the order or story is
missing or the page set is empty; sort the pages, run the page loop, then
finalize the document — the awaited stream write either finishes, after
which the download URL is returned, or errors, which rejects the awaited
promise and propagates to the caller. -/
def assemblePDF (env : AssembleEnv) : Except AssembleError (List (Nat × Bool) × String) :=
  if env.orderFound = false then .error .orderNotFound
  else if env.storyFound = false then .error .storyNotFound
  else if env.pages.isEmpty then .error .noPages
  else
    let sorted := sortPages env.pages
    let included := processPages env.renderThrows env.vectorizeOk sorted 0
    if env.writeOk then .ok (included, "/downloads/" ++ env.fileName)
    else .error .writeFailure

/-- Whether the call returned normally. -/
def assembleOk : Except AssembleError (List (Nat × Bool) × String) → Bool
  | .ok _ => true
  | .error _ => false

/-- An assembly run refuting C10 as stated: order and story exist and the
page set is non-empty, but the final write fails. -/
def envC10 : AssembleEnv :=
  { orderFound := true
    storyFound := true
    pages := [⟨1, some "img", none⟩]
    renderThrows := fun _ => false
    vectorizeOk := fun _ => true
    fileName := "book.pdf"
    writeOk := false }

/-- Counterexample to C10 as stated: the claim says `assemblePDF` throws
only when the order or story is missing or the page set is empty, and that
every non-empty page set yields an artifact reference; here the order and
story exist and a renderable page is present, yet the call throws because
the final stream write fails. -/
theorem assemble_throw_counterexample :
    assemblePDF envC10 = .error .writeFailure
    ∧ envC10.orderFound = true
    ∧ envC10.storyFound = true
    ∧ envC10.pages ≠ [] := by
  refine ⟨rfl, rfl, rfl, ?_⟩
  decide

/-- C10 (amended): `assemblePDF` throws exactly when the order or story is
missing, the page set is empty, or the final write fails; when it returns,
the document contains — in page order — precisely the pages that carry
image data and whose rendering does not throw: a page with absent image
data or a rendering error is silently skipped and never aborts assembly. -/
theorem assemble_skip_semantics :
    (∀ env : AssembleEnv,
      assembleOk (assemblePDF env)
        = (env.orderFound && env.storyFound && !env.pages.isEmpty && env.writeOk))
    ∧ (∀ (vo : Nat → Bool) (pgs : List BookPage) (k : Nat),
        (processPages (fun _ => false) vo pgs k).map Prod.fst
          = (pgs.filter (fun pg => pg.imageData.isSome)).map (fun pg => pg.pageNumber))
    ∧ (∀ (rt vo : Nat → Bool) (pgs : List BookPage) (k m : Nat) (v : Bool),
        (m, v) ∈ processPages rt vo pgs k →
        m ∈ (pgs.filter (fun pg => pg.imageData.isSome)).map (fun pg => pg.pageNumber)) := by
  refine ⟨?_, ?_, ?_⟩
  · intro env
    unfold assemblePDF assembleOk
    by_cases h1 : env.orderFound = false
    · simp [h1]
    · have h1' : env.orderFound = true := by simpa using h1
      by_cases h2 : env.storyFound = false
      · simp [h1', h2]
      · have h2' : env.storyFound = true := by simpa using h2
        by_cases h3 : env.pages.isEmpty = true
        · simp [h1', h2', h3]
        · have h3' : env.pages.isEmpty = false := by simpa using h3
          by_cases h4 : env.writeOk = true
          · simp [h1', h2', h3', h4]
          · have h4' : env.writeOk = false := by simpa using h4
            simp [h1', h2', h3', h4']
  · intro vo pgs
    induction pgs with
    | nil => intro k; simp [processPages]
    | cons pg rest ih =>
      intro k
      cases hdata : pg.imageData with
      | none => simp [processPages, hdata, List.filter_cons, ih k]
      | some d => simp [processPages, hdata, List.filter_cons, ih (k + 1)]
  · intro rt vo pgs
    induction pgs with
    | nil => intro k m v hm; simp [processPages] at hm
    | cons pg rest ih =>
      intro k m v hm
      cases hdata : pg.imageData with
      | none =>
        rw [processPages, hdata] at hm
        have := ih k m v hm
        simpa [List.filter_cons, hdata] using this
      | some d =>
        rw [processPages, hdata] at hm
        by_cases hrt : rt k = true
        · rw [if_pos hrt] at hm
          have hrec := ih (k + 1) m v hm
          simp [List.filter_cons, hdata]
          exact Or.inr (by simpa using hrec)
        · rw [if_neg hrt] at hm
          rcases List.mem_cons.mp hm with heq | htail
          · have hpn : m = pg.pageNumber := by
              have := congrArg Prod.fst heq
              simpa using this
            simp [List.filter_cons, hdata, hpn]
          · have hrec := ih (k + 1) m v htail
            simp [List.filter_cons, hdata]
            exact Or.inr (by simpa using hrec)

/-- Witness for C10 (amended): with no rendering errors, a run over a
cover with data, a data-less page 1 and a data-carrying page 2 includes
exactly pages 0 and 2, and the included page 2 indeed comes from a
data-carrying source page. -/
theorem assemble_skip_semantics_witness :
    (processPages (fun _ => false) (fun _ => true)
        [⟨0, some "cover", none⟩, ⟨1, none, none⟩, ⟨2, some "img", some "text"⟩] 0).map
      Prod.fst = [0, 2]
    ∧ 2 ∈ ([⟨1, none, none⟩, (⟨2, some "img", none⟩ : BookPage)].filter
        (fun pg => pg.imageData.isSome)).map (fun pg => pg.pageNumber) := by
  constructor
  · rw [assemble_skip_semantics.2.1 (fun _ => true)
      [⟨0, some "cover", none⟩, ⟨1, none, none⟩, ⟨2, some "img", some "text"⟩] 0]
    decide
  · exact assemble_skip_semantics.2.2 (fun _ => false) (fun _ => true)
      [⟨1, none, none⟩, ⟨2, some "img", none⟩] 0 2 true (by decide)

end ColoringBook
